import Mathlib

/-!
Verification of the telos-runtime taint-based enforcement core.

Shallow embedding of:
  - the kernel enforcement engine (src/telos_core/src/bpf_lsm.c):
    the pre-execution gate `telos_check_exec` and the file-open gate
    `telos_check_file`, as pure functions over (config snapshot,
    process table, caller identity) returning a C-style int verdict
    (0 = allow, -EPERM = deny) plus the list of events passed to
    `emit_event` (ring-buffer drop-on-full is abstracted away: the
    list records the emission attempts, which the hook makes at most
    once per invocation);
  - the control-plane daemon command handlers
    (src/telos_core/loader/main.go): `handleCommand`, `cmdUpdateTaint`,
    `cmdClearTaint`, `cmdRegisterAgent`, `cmdGetState`, and the
    per-connection loop `handleConnection`, over an association-list
    model of the pinned BPF hash map with per-key put/delete;
  - the bootstrap attach logic of `loadBPF`, over the outcomes of the
    three LSM attach calls.

Machine integers (u32) are modelled as Nat: every value the code
actually stores or compares lives far below 2^32 and no arithmetic
that could overflow occurs in the modelled paths.  The fixed 16-byte
`comm` field is modelled as a String, the all-zero array as "".
JSON numbers arriving over the socket are modelled after Go-side
conversion: a field is `some n` when the `.(float64)` type assertion
succeeds, `none` when the field is missing or not numeric.
-/

/-! ## Taint levels (src/shared/common_maps.h) -/

def TAINT_CLEAN : Nat := 0

def TAINT_LOW : Nat := 1

def TAINT_MEDIUM : Nat := 2

def TAINT_HIGH : Nat := 3

def TAINT_CRITICAL : Nat := 4

/-- EPERM as defined in bpf_lsm.c; the hooks return -EPERM to deny. -/
def EPERM : Int := 1

/-! ## Shared record layouts -/

/-- struct process_info_t from src/shared/common_maps.h:
pid, taint_level, is_sandboxed (u32 0/1), comm (fixed 16 bytes). -/
structure process_info_t where
  pid : Nat
  taint_level : Nat
  is_sandboxed : Nat
  comm : String
deriving Repr, DecidableEq

/-- struct telos_config_t from bpf_lsm.c: the singleton config value. -/
structure telos_config_t where
  max_taint_for_exec : Nat
  max_taint_for_open : Nat
  enabled : Nat
deriving Repr, DecidableEq

/-- struct event_t from bpf_lsm.c: one audit event as submitted to the
ring buffer by emit_event. -/
structure event_t where
  pid : Nat
  taint_level : Nat
  blocked : Nat
  comm : String
  action : String
deriving Repr, DecidableEq

/-! ## The process table (BPF hash map pid -> process_info_t)

Modelled as an association list with unique keys; `tablePut` and
`tableDelete` are the per-key atomic update/delete, `tableLookup` is
bpf_map_lookup_elem. -/

/-- The process taint table: key pid, value process_info_t. -/
abbrev ProcTable := List (Nat × process_info_t)

/-- bpf_map_lookup_elem on the process map. -/
def tableLookup (t : ProcTable) (pid : Nat) : Option process_info_t :=
  List.lookup pid t

/-- Per-key upsert (ebpf Map.Put): replaces any existing entry for pid. -/
def tablePut (t : ProcTable) (pid : Nat) (v : process_info_t) : ProcTable :=
  (pid, v) :: t.filter (fun p => p.1 != pid)

/-- Per-key delete (ebpf Map.Delete). -/
def tableDelete (t : ProcTable) (pid : Nat) : ProcTable :=
  t.filter (fun p => p.1 != pid)

/-! ## Kernel enforcement engine (bpf_lsm.c) -/

/-- telos_check_exec (bpf_lsm.c, SEC lsm/bprm_check_security).

Inputs: the config-map snapshot (`none` when the lookup fails), the
process table, the calling pid, the parent pid read from
current_task.real_parent.tgid, and the current comm (as read by
bpf_get_current_comm for the event).  Returns the C int verdict
(0 allow, -EPERM deny) and the events emitted. -/
def telos_check_exec (config : Option telos_config_t) (table : ProcTable)
    (pid ppid : Nat) (comm : String) : Int × List event_t :=
  let max_taint := match config with
    | some c => c.max_taint_for_exec
    | none => TAINT_MEDIUM
  let enforce := match config with
    | some c => c.enabled
    | none => 1
  let effective_taint := match tableLookup table pid with
    | some info => info.taint_level
    | none =>
      match tableLookup table ppid with
      | some parent_info => parent_info.taint_level
      | none => TAINT_CLEAN
  if effective_taint > max_taint then
    let ev : event_t := ⟨pid, effective_taint, 1, comm, "execve"⟩
    if enforce ≠ 0 then (-EPERM, [ev]) else (0, [ev])
  else
    (0, [])

/-- The filename check in telos_check_file: filename[0] = i,
filename[1] = d, filename[2] = \x5f, with the short-circuit of the C
conjunction (a name shorter than three characters compares its null
terminator and fails). -/
def sensitive_name (filename : List Char) : Bool :=
  match filename with
  | 'i' :: 'd' :: '_' :: _ => true
  | _ => false

/-- telos_check_file (bpf_lsm.c, SEC lsm/file_open).

`fname` is the result of reading dentry.d_name.name: `none` models a
null dentry or a failed bpf_probe_read_kernel_str (both return allow
in the source); `comm` is the caller comm for the event.  The local
`max_taint` mirrors the source, which reads max_taint_for_open but
never uses it. -/
def telos_check_file (config : Option telos_config_t) (table : ProcTable)
    (pid : Nat) (fname : Option (List Char)) (comm : String) :
    Int × List event_t :=
  match tableLookup table pid with
  | none => (0, [])
  | some info =>
    let max_taint := match config with
      | some c => c.max_taint_for_open
      | none => TAINT_HIGH
    let enforce := match config with
      | some c => c.enabled
      | none => 1
    if info.taint_level ≥ TAINT_CRITICAL then
      match fname with
      | none => (0, [])
      | some filename =>
        if sensitive_name filename then
          let ev : event_t := ⟨pid, info.taint_level, 1, comm, "open"⟩
          if enforce ≠ 0 then (-EPERM, [ev]) else (0, [ev])
        else
          (0, [])
    else
      (0, [])

/-! ## Specification-side vocabulary

The spec speaks of ALLOW/DENY verdicts, an explicit two-step
effective-taint resolver, and config defaults; these are defined here
in the spec's terms and related to the source embedding by the
theorems below. -/

/-- The ALLOW/DENY verdict of one hook invocation. -/
inductive Verdict where
  | ALLOW
  | DENY
deriving Repr, DecidableEq

/-- Map a hook return code to the spec verdict: 0 is ALLOW, any
nonzero (-EPERM) is DENY. -/
def verdict_of (r : Int) : Verdict :=
  if r = 0 then Verdict.ALLOW else Verdict.DENY

/-- The two-step resolver of the spec: self entry, else parent entry,
else CLEAN. -/
def effective_taint_resolver (table : ProcTable) (pid ppid : Nat) : Nat :=
  match tableLookup table pid with
  | some info => info.taint_level
  | none =>
    match tableLookup table ppid with
    | some parent_info => parent_info.taint_level
    | none => TAINT_CLEAN

/-- The exec threshold: Config.max_taint_for_exec, MEDIUM when the
config singleton is absent. -/
def exec_threshold (config : Option telos_config_t) : Nat :=
  match config with
  | some c => c.max_taint_for_exec
  | none => TAINT_MEDIUM

/-- Whether enforcement is on: Config.enabled nonzero, on by default
when the config singleton is absent. -/
def enforcement_on (config : Option telos_config_t) : Bool :=
  (match config with
   | some c => c.enabled
   | none => 1) ≠ 0

/-! ## Control-plane daemon (loader/main.go) -/

/-- The `data` mapping of an IPCCommand, after the Go-side float64
type assertions: a field is `some v` when present with the right JSON
type, `none` when missing or of the wrong type (the validation-error
case).  `comm` is the optional string field of REGISTER_AGENT. -/
structure CmdData where
  pid : Option Nat
  taint_level : Option Nat
  comm : Option String
deriving Repr, DecidableEq

/-- A command frame: {command, data}. -/
structure IPCCommand where
  command : String
  data : CmdData
deriving Repr, DecidableEq

/-- The payload carried in an IPCResponse data field. -/
inductive RespData where
  | noData
  | pong
  | state (procs : List (Nat × Nat × Nat))
deriving Repr, DecidableEq

/-- A response frame: {success, error, data}; error "" models the
omitted omitempty field. -/
structure IPCResponse where
  success : Bool
  error : String
  data : RespData
deriving Repr, DecidableEq

/-- The daemon's access to the BPF map: put and delete may fail at the
ebpf layer (Map.Put / Map.Delete returning an error).  A backend fixes
the outcome of each operation; `okBackend` is the healthy map. -/
structure TableBackend where
  putOp : ProcTable → Nat → process_info_t → Except String ProcTable
  deleteOp : ProcTable → Nat → Except String ProcTable

/-- The healthy backend: put and delete always succeed with the
per-key association-list semantics. -/
def okBackend : TableBackend where
  putOp := fun t pid v => Except.ok (tablePut t pid v)
  deleteOp := fun t pid => Except.ok (tableDelete t pid)

/-- A backend whose every table operation fails with error e. -/
def failBackend (e : String) : TableBackend where
  putOp := fun _ _ _ => Except.error e
  deleteOp := fun _ _ => Except.error e

/-- cmdUpdateTaint (main.go): validate pid and taint_level, then Put a
fresh ProcessInfo carrying only PID and TaintLevel (Go zero value for
IsSandboxed and Comm).  A Put error becomes a failure response. -/
def cmdUpdateTaint (be : TableBackend) (t : ProcTable) (data : CmdData) :
    IPCResponse × ProcTable :=
  match data.pid with
  | none => (⟨false, "Missing or invalid \x27pid\x27", RespData.noData⟩, t)
  | some pid =>
    match data.taint_level with
    | none => (⟨false, "Missing or invalid \x27taint_level\x27", RespData.noData⟩, t)
    | some level =>
      let info : process_info_t := ⟨pid, level, 0, ""⟩
      match be.putOp t pid info with
      | Except.error e => (⟨false, e, RespData.noData⟩, t)
      | Except.ok t2 => (⟨true, "", RespData.noData⟩, t2)

/-- cmdClearTaint (main.go): validate pid, Delete it; a Delete error
is only logged and the response is success either way. -/
def cmdClearTaint (be : TableBackend) (t : ProcTable) (data : CmdData) :
    IPCResponse × ProcTable :=
  match data.pid with
  | none => (⟨false, "Missing or invalid \x27pid\x27", RespData.noData⟩, t)
  | some pid =>
    match be.deleteOp t pid with
    | Except.error _ => (⟨true, "", RespData.noData⟩, t)
    | Except.ok t2 => (⟨true, "", RespData.noData⟩, t2)

/-- cmdRegisterAgent (main.go): validate pid, read comm with the
silent default "", Put ProcessInfo with taint CLEAN and comm copied
into the fixed 16-byte field. -/
def cmdRegisterAgent (be : TableBackend) (t : ProcTable) (data : CmdData) :
    IPCResponse × ProcTable :=
  match data.pid with
  | none => (⟨false, "Missing or invalid \x27pid\x27", RespData.noData⟩, t)
  | some pid =>
    let comm := (data.comm.getD "").take 16
    let info : process_info_t := ⟨pid, TAINT_CLEAN, 0, comm⟩
    match be.putOp t pid info with
    | Except.error e => (⟨false, e, RespData.noData⟩, t)
    | Except.ok t2 => (⟨true, "", RespData.noData⟩, t2)

/-- The snapshot cmdGetState builds by iterating the process map:
pid mapped to (taint_level, sandboxed). -/
def stateSnapshot (t : ProcTable) : List (Nat × Nat × Nat) :=
  t.map (fun p => (p.1, p.2.taint_level, p.2.is_sandboxed))

/-- cmdGetState (main.go): read-only snapshot response. -/
def cmdGetState (t : ProcTable) : IPCResponse :=
  ⟨true, "", RespData.state (stateSnapshot t)⟩

/-- handleCommand (main.go): dispatch on the command string; an
unrecognised name yields the Unknown command failure and touches no
state. -/
def handleCommand (be : TableBackend) (t : ProcTable) (cmd : IPCCommand) :
    IPCResponse × ProcTable :=
  if cmd.command = "PING" then
    (⟨true, "", RespData.pong⟩, t)
  else if cmd.command = "UPDATE_TAINT" then
    cmdUpdateTaint be t cmd.data
  else if cmd.command = "CLEAR_TAINT" then
    cmdClearTaint be t cmd.data
  else if cmd.command = "REGISTER_AGENT" then
    cmdRegisterAgent be t cmd.data
  else if cmd.command = "GET_STATE" then
    (cmdGetState t, t)
  else
    (⟨false, "Unknown command: " ++ cmd.command, RespData.noData⟩, t)

/-- One line arriving on a connection: either a line json.Unmarshal
rejects (with the parser detail), or a parsed command. -/
inductive Msg where
  | bad (detail : String)
  | cmd (c : IPCCommand)
deriving Repr, DecidableEq

/-- The body of the handleConnection loop for one line: an
unparseable line gets the Invalid JSON failure response and the loop
continues with state untouched. -/
def handleLine (be : TableBackend) (t : ProcTable) (m : Msg) :
    IPCResponse × ProcTable :=
  match m with
  | Msg.bad detail => (⟨false, "Invalid JSON: " ++ detail, RespData.noData⟩, t)
  | Msg.cmd c => handleCommand be t c

/-- handleConnection (main.go): lines of one connection processed in
order, each answered, the connection staying open throughout. -/
def handleConnection (be : TableBackend) (t : ProcTable) :
    List Msg → List IPCResponse × ProcTable
  | [] => ([], t)
  | m :: rest =>
    let r := handleLine be t m
    let rs := handleConnection be r.2 rest
    (r.1 :: rs.1, rs.2)

/-- A parsed-command sequence run through handleConnection. -/
def runCommands (be : TableBackend) (t : ProcTable) (cmds : List IPCCommand) :
    List IPCResponse × ProcTable :=
  handleConnection be t (cmds.map Msg.cmd)

/-! ## Bootstrap (loadBPF and Start, main.go) -/

/-- The outcomes of the three link.AttachLSM calls in loadBPF. -/
structure AttachOutcome where
  execRes : Except String Unit
  fileRes : Except String Unit
  taskRes : Except String Unit

/-- What loadBPF leaves behind on success: which hooks got attached
and the warnings it logged. -/
structure LoadResult where
  execAttached : Bool
  fileAttached : Bool
  taskAttached : Bool
  warnings : List String
deriving Repr, DecidableEq

/-- loadBPF (main.go): attaching telos_check_exec is mandatory (its
error is returned, aborting startup); telos_check_file and
telos_task_alloc are best-effort (errors logged as warnings). -/
def loadBPF (a : AttachOutcome) : Except String LoadResult :=
  match a.execRes with
  | Except.error e => Except.error ("attach check_exec: " ++ e)
  | Except.ok _ =>
    let fileR := match a.fileRes with
      | Except.error e =>
        (false, ["Warning: Failed to attach check_file: " ++ e])
      | Except.ok _ => (true, [])
    let taskR := match a.taskRes with
      | Except.error e =>
        (false, ["Warning: Failed to attach task_alloc: " ++ e])
      | Except.ok _ => (true, [])
    Except.ok ⟨true, fileR.1, taskR.1, fileR.2 ++ taskR.2⟩

/-- A successful Start: the load result plus the fact that the command
socket got started (which only happens after loadBPF succeeded). -/
structure StartResult where
  load : LoadResult
  serverStarted : Bool
deriving Repr, DecidableEq

/-- Start (main.go): loadBPF, then initConfig, then the socket server;
a loadBPF error propagates out before any command is served, and main
turns it into a fatal exit. -/
def daemonStart (a : AttachOutcome) : Except String StartResult :=
  match loadBPF a with
  | Except.error e => Except.error ("failed to load BPF: " ++ e)
  | Except.ok r => Except.ok ⟨r, true⟩

/-- initConfig (main.go): the default config singleton written at
bootstrap. -/
def initConfig : telos_config_t :=
  ⟨TAINT_MEDIUM, TAINT_HIGH, 1⟩

/-! ## Theorems -/

/-- Characterization of the pre-execution gate in spec vocabulary:
resolver, threshold, enforcement flag. -/
theorem telos_check_exec_eq (config : Option telos_config_t)
    (table : ProcTable) (pid ppid : Nat) (comm : String) :
    telos_check_exec config table pid ppid comm =
      if effective_taint_resolver table pid ppid > exec_threshold config then
        ((if enforcement_on config then -EPERM else 0),
         [⟨pid, effective_taint_resolver table pid ppid, 1, comm, "execve"⟩])
      else
        ((0 : Int), []) := by
  unfold telos_check_exec effective_taint_resolver exec_threshold enforcement_on
  cases config <;> simp only [] <;> split <;> (try rfl) <;> split <;> simp_all

/-- Claim C1: the pre-execution gate resolves the effective taint via
self-then-parent-then-CLEAN, compares it with the exec threshold
(Config.max_taint_for_exec, MEDIUM when Config is absent); above the
threshold it emits exactly one blocked execve event and denies exactly
when enforcement is on, otherwise it allows with no event. -/
theorem telos_check_exec_gate (config : Option telos_config_t)
    (table : ProcTable) (pid ppid : Nat) (comm : String) :
    (effective_taint_resolver table pid ppid > exec_threshold config →
      (telos_check_exec config table pid ppid comm).2 =
        [⟨pid, effective_taint_resolver table pid ppid, 1, comm, "execve"⟩] ∧
      verdict_of (telos_check_exec config table pid ppid comm).1 =
        (if enforcement_on config then Verdict.DENY else Verdict.ALLOW)) ∧
    (effective_taint_resolver table pid ppid ≤ exec_threshold config →
      telos_check_exec config table pid ppid comm = (0, [])) := by
  rw [telos_check_exec_eq]
  constructor
  · intro h
    rw [if_pos h]
    refine ⟨rfl, ?_⟩
    unfold verdict_of EPERM
    split <;> simp
  · intro h
    rw [if_neg (by omega)]

/-- Witness for C1: pid 5 tracked CRITICAL, no config singleton
(threshold defaults to MEDIUM, enforcement on): deny with one event. -/
theorem telos_check_exec_gate_witness :
    effective_taint_resolver [(5, ⟨5, TAINT_CRITICAL, 0, "bash"⟩)] 5 1 >
      exec_threshold none ∧
    (telos_check_exec none [(5, ⟨5, TAINT_CRITICAL, 0, "bash"⟩)] 5 1 "curl").2 =
      [⟨5, effective_taint_resolver [(5, ⟨5, TAINT_CRITICAL, 0, "bash"⟩)] 5 1,
        1, "curl", "execve"⟩] ∧
    verdict_of (telos_check_exec none [(5, ⟨5, TAINT_CRITICAL, 0, "bash"⟩)]
        5 1 "curl").1 =
      (if enforcement_on none then Verdict.DENY else Verdict.ALLOW) :=
  ⟨by decide,
   (telos_check_exec_gate none [(5, ⟨5, TAINT_CRITICAL, 0, "bash"⟩)] 5 1
      "curl").1 (by decide)⟩

/-- Claim C2: the file-open gate allows untracked pids (no parent
fallback), allows any tracked pid below CRITICAL unconditionally; at
CRITICAL (or above) it checks the file name, and on an id_ name it
emits exactly one blocked open event, denying exactly when enforcement
is on; a non-matching name is allowed with no event. -/
theorem telos_check_file_gate (config : Option telos_config_t)
    (table : ProcTable) (pid : Nat) (fname : Option (List Char))
    (comm : String) :
    (tableLookup table pid = none →
      telos_check_file config table pid fname comm = (0, [])) ∧
    (∀ info, tableLookup table pid = some info →
      (info.taint_level < TAINT_CRITICAL →
        telos_check_file config table pid fname comm = (0, [])) ∧
      (info.taint_level ≥ TAINT_CRITICAL →
        ∀ filename, fname = some filename →
          (sensitive_name filename = true →
            (telos_check_file config table pid fname comm).2 =
              [⟨pid, info.taint_level, 1, comm, "open"⟩] ∧
            verdict_of (telos_check_file config table pid fname comm).1 =
              (if enforcement_on config then Verdict.DENY else Verdict.ALLOW)) ∧
          (sensitive_name filename = false →
            telos_check_file config table pid fname comm = (0, [])))) := by
  constructor
  · intro h
    unfold telos_check_file
    rw [h]
  · intro info h
    constructor
    · intro hlow
      unfold telos_check_file
      rw [h]
      simp only []
      rw [if_neg (by omega)]
    · intro hcrit filename hf
      subst hf
      constructor
      · intro hsens
        unfold telos_check_file
        rw [h]
        simp only []
        rw [if_pos hcrit, hsens]
        cases config with
        | none => simp [verdict_of, enforcement_on, EPERM]
        | some c =>
          by_cases he : c.enabled = 0
          · simp [verdict_of, enforcement_on, EPERM, he]
          · simp [verdict_of, enforcement_on, EPERM, he]
      · intro hsens
        unfold telos_check_file
        rw [h]
        simp only []
        rw [if_pos hcrit, hsens]
        simp

/-- Witness for C2: pid 7 tracked CRITICAL under the default config;
opening id_rsa yields one blocked open event and DENY. -/
theorem telos_check_file_gate_witness :
    tableLookup [(7, ⟨7, TAINT_CRITICAL, 0, "python3"⟩)] 7 =
      some ⟨7, TAINT_CRITICAL, 0, "python3"⟩ ∧
    (TAINT_CRITICAL ≥ TAINT_CRITICAL) ∧
    sensitive_name ("id_rsa".toList) = true ∧
    (telos_check_file (some initConfig) [(7, ⟨7, TAINT_CRITICAL, 0, "python3"⟩)]
        7 (some ("id_rsa".toList)) "python3").2 =
      [⟨7, TAINT_CRITICAL, 1, "python3", "open"⟩] ∧
    verdict_of (telos_check_file (some initConfig)
        [(7, ⟨7, TAINT_CRITICAL, 0, "python3"⟩)] 7
        (some ("id_rsa".toList)) "python3").1 =
      (if enforcement_on (some initConfig) then Verdict.DENY
       else Verdict.ALLOW) :=
  ⟨by decide, by decide, by decide,
   (((telos_check_file_gate (some initConfig)
        [(7, ⟨7, TAINT_CRITICAL, 0, "python3"⟩)] 7
        (some ("id_rsa".toList)) "python3").2
      ⟨7, TAINT_CRITICAL, 0, "python3"⟩ (by decide)).2 (by decide)
      ("id_rsa".toList) rfl).1 (by decide)⟩

/-- Lookup after filtering a key out of the table finds nothing. -/
theorem lookup_filter_self (t : ProcTable) (pid : Nat) :
    List.lookup pid (t.filter (fun p => p.1 != pid)) = none := by
  induction t with
  | nil => rfl
  | cons p rest ih =>
    by_cases h : p.1 = pid
    · simp [List.filter_cons, h, ih]
    · have hbeq : (pid == p.1) = false := by simp [Ne.symm h]
      rw [List.filter_cons, if_pos (by simp [h])]
      simp [List.lookup, hbeq, ih]

/-- tableDelete removes the key. -/
theorem tableLookup_delete_self (t : ProcTable) (pid : Nat) :
    tableLookup (tableDelete t pid) pid = none :=
  lookup_filter_self t pid

/-- tablePut stores exactly the given record at the key. -/
theorem tableLookup_put_self (t : ProcTable) (pid : Nat)
    (v : process_info_t) : tableLookup (tablePut t pid v) pid = some v := by
  simp [tableLookup, tablePut, List.lookup_cons]

/-- tablePut and tableDelete leave other keys alone. -/
theorem tableLookup_filter_other (t : ProcTable) (pid q : Nat)
    (hq : q ≠ pid) :
    List.lookup q (t.filter (fun p => p.1 != pid)) = List.lookup q t := by
  induction t with
  | nil => rfl
  | cons p rest ih =>
    by_cases h : p.1 = pid
    · have hq2 : (q == p.1) = false := by simp [h]; exact hq
      rw [List.filter_cons, if_neg (by simp [h])]
      simp [List.lookup, hq2, ih]
    · rw [List.filter_cons, if_pos (by simp [h])]
      cases hqp : q == p.1 <;> simp [List.lookup, hqp, ih]

/-- An untracked caller with an untracked parent is allowed to exec
with no event. -/
theorem check_exec_untracked (config : Option telos_config_t)
    (t : ProcTable) (pid ppid : Nat) (comm : String)
    (h1 : tableLookup t pid = none) (h2 : tableLookup t ppid = none) :
    telos_check_exec config t pid ppid comm = (0, []) := by
  rw [telos_check_exec_eq]
  rw [if_neg ?_]
  unfold effective_taint_resolver
  rw [h1, h2]
  simp [TAINT_CLEAN]

/-- The command sequence of the last-write-wins test: register agent
100, set taint HIGH, set taint LOW, then query the state. -/
def c3cmds : List IPCCommand :=
  [⟨"REGISTER_AGENT", ⟨some 100, none, some "agent"⟩⟩,
   ⟨"UPDATE_TAINT", ⟨some 100, some TAINT_HIGH, none⟩⟩,
   ⟨"UPDATE_TAINT", ⟨some 100, some TAINT_LOW, none⟩⟩,
   ⟨"GET_STATE", ⟨none, none, none⟩⟩]

/-- Claim C3: taint updates are last-write-wins; after
REGISTER_AGENT(100), UPDATE_TAINT(100, HIGH), UPDATE_TAINT(100, LOW),
the GET_STATE response (from any starting table) is a success whose
snapshot reports pid 100 at taint LOW. -/
theorem update_taint_last_write_wins (t : ProcTable) :
    ∃ procs,
      (runCommands okBackend t c3cmds).1.getLast? =
        some ⟨true, "", RespData.state procs⟩ ∧
      List.lookup 100 procs = some (TAINT_LOW, 0) := by
  refine ⟨stateSnapshot (tablePut (tablePut (tablePut t 100
      ⟨100, TAINT_CLEAN, 0, "agent".take 16⟩) 100 ⟨100, TAINT_HIGH, 0, ""⟩)
      100 ⟨100, TAINT_LOW, 0, ""⟩), ?_, ?_⟩
  · simp [runCommands, c3cmds, handleConnection, handleLine, handleCommand,
      cmdRegisterAgent, cmdUpdateTaint, cmdGetState, okBackend]
  · simp [stateSnapshot, tablePut, List.lookup_cons]

/-- Claim C4: CLEAR_TAINT succeeds for every pid whether or not the
entry exists; after UPDATE_TAINT(pid, CRITICAL) then CLEAR_TAINT(pid)
the pid is untracked, and a pre-execution gate call for it (with an
untracked parent) allows with no event. -/
theorem clear_taint_idempotent_untracks (t : ProcTable) (pid ppid : Nat)
    (config : Option telos_config_t) (comm : String) :
    (cmdClearTaint okBackend t ⟨some pid, none, none⟩).1 =
      ⟨true, "", RespData.noData⟩ ∧
    tableLookup (cmdClearTaint okBackend
      (cmdUpdateTaint okBackend t ⟨some pid, some TAINT_CRITICAL, none⟩).2
      ⟨some pid, none, none⟩).2 pid = none ∧
    (tableLookup (cmdClearTaint okBackend
        (cmdUpdateTaint okBackend t ⟨some pid, some TAINT_CRITICAL, none⟩).2
        ⟨some pid, none, none⟩).2 ppid = none →
      telos_check_exec config (cmdClearTaint okBackend
        (cmdUpdateTaint okBackend t ⟨some pid, some TAINT_CRITICAL, none⟩).2
        ⟨some pid, none, none⟩).2 pid ppid comm = (0, [])) := by
  refine ⟨rfl, ?_, ?_⟩
  · simp only [cmdClearTaint, cmdUpdateTaint, okBackend]
    exact tableLookup_delete_self _ pid
  · intro hp
    apply check_exec_untracked
    · simp only [cmdClearTaint, cmdUpdateTaint, okBackend]
      exact tableLookup_delete_self _ pid
    · exact hp

/-- Witness for C4 at pid 9, parent 1, from the empty table. -/
theorem clear_taint_idempotent_untracks_witness :
    (cmdClearTaint okBackend [] ⟨some 9, none, none⟩).1 =
      ⟨true, "", RespData.noData⟩ ∧
    tableLookup (cmdClearTaint okBackend
      (cmdUpdateTaint okBackend [] ⟨some 9, some TAINT_CRITICAL, none⟩).2
      ⟨some 9, none, none⟩).2 9 = none ∧
    telos_check_exec (some initConfig) (cmdClearTaint okBackend
      (cmdUpdateTaint okBackend [] ⟨some 9, some TAINT_CRITICAL, none⟩).2
      ⟨some 9, none, none⟩).2 9 1 "bash" = (0, []) := by
  obtain ⟨a, b, c⟩ :=
    clear_taint_idempotent_untracks [] 9 1 (some initConfig) "bash"
  exact ⟨a, b, c (by decide)⟩

/-- Claim C10: a successful UPDATE_TAINT replaces the whole record:
whatever comm or is_sandboxed the pid had before, the stored entry is
exactly pid and the new level with comm zeroed and is_sandboxed 0. -/
theorem update_taint_replaces_record (t : ProcTable) (pid level : Nat)
    (c : Option String) :
    (cmdUpdateTaint okBackend t ⟨some pid, some level, c⟩).1.success = true ∧
    tableLookup (cmdUpdateTaint okBackend t ⟨some pid, some level, c⟩).2 pid =
      some ⟨pid, level, 0, ""⟩ := by
  refine ⟨rfl, ?_⟩
  simp only [cmdUpdateTaint, okBackend]
  exact tableLookup_put_self t pid _

/-- Claim C9: the file-open gate never consults max_taint_for_open:
two configs agreeing on the other two fields produce identical
verdicts and events on every table, pid and file name. -/
theorem check_file_ignores_open_threshold (c1 c2 : telos_config_t)
    (hexec : c1.max_taint_for_exec = c2.max_taint_for_exec)
    (hen : c1.enabled = c2.enabled) (t : ProcTable) (pid : Nat)
    (fname : Option (List Char)) (comm : String) :
    telos_check_file (some c1) t pid fname comm =
      telos_check_file (some c2) t pid fname comm := by
  unfold telos_check_file
  cases tableLookup t pid <;> simp [hen]

/-- Witness for C9: two configs differing only in max_taint_for_open
give the same result on a CRITICAL process opening id_rsa. -/
theorem check_file_ignores_open_threshold_witness :
    telos_check_file (some ⟨TAINT_MEDIUM, TAINT_HIGH, 1⟩)
      [(7, ⟨7, TAINT_CRITICAL, 0, "python3"⟩)] 7
      (some ("id_rsa".toList)) "python3" =
    telos_check_file (some ⟨TAINT_MEDIUM, TAINT_CLEAN, 1⟩)
      [(7, ⟨7, TAINT_CRITICAL, 0, "python3"⟩)] 7
      (some ("id_rsa".toList)) "python3" :=
  check_file_ignores_open_threshold ⟨TAINT_MEDIUM, TAINT_HIGH, 1⟩
    ⟨TAINT_MEDIUM, TAINT_CLEAN, 1⟩ rfl rfl
    [(7, ⟨7, TAINT_CRITICAL, 0, "python3"⟩)] 7
    (some ("id_rsa".toList)) "python3"

/-- Counterexample for C5 as stated: with a backend whose Delete
fails, CLEAR_TAINT still answers success (the source logs and ignores
the delete error), so a delete failure is not surfaced. -/
theorem clear_taint_error_not_surfaced :
    (cmdClearTaint (failBackend "map operation failed")
      [(5, ⟨5, TAINT_HIGH, 0, "bash"⟩)] ⟨some 5, none, none⟩).1 =
      ⟨true, "", RespData.noData⟩ := rfl

/-- Claim C5 (amended): a put failure in UPDATE_TAINT or
REGISTER_AGENT is surfaced as a failure response carrying the error
string, with state unchanged; CLEAR_TAINT instead ignores a delete
failure and returns success. -/
theorem state_op_failure_surfaced (be : TableBackend) (t : ProcTable)
    (pid lvl : Nat) (c : Option String) (e : String) :
    (be.putOp t pid ⟨pid, lvl, 0, ""⟩ = Except.error e →
      cmdUpdateTaint be t ⟨some pid, some lvl, c⟩ =
        (⟨false, e, RespData.noData⟩, t)) ∧
    (be.putOp t pid ⟨pid, TAINT_CLEAN, 0, (c.getD "").take 16⟩ =
        Except.error e →
      cmdRegisterAgent be t ⟨some pid, none, c⟩ =
        (⟨false, e, RespData.noData⟩, t)) ∧
    (be.deleteOp t pid = Except.error e →
      (cmdClearTaint be t ⟨some pid, none, none⟩).1 =
        ⟨true, "", RespData.noData⟩) := by
  refine ⟨?_, ?_, ?_⟩
  · intro h
    unfold cmdUpdateTaint
    simp [h]
  · intro h
    unfold cmdRegisterAgent
    simp [h]
  · intro h
    unfold cmdClearTaint
    simp [h]

/-- Witness for amended C5 with the all-failing backend. -/
theorem state_op_failure_surfaced_witness :
    cmdUpdateTaint (failBackend "put failed") [] ⟨some 4, some 2, none⟩ =
      (⟨false, "put failed", RespData.noData⟩, []) ∧
    cmdRegisterAgent (failBackend "put failed") [] ⟨some 4, none, none⟩ =
      (⟨false, "put failed", RespData.noData⟩, []) ∧
    (cmdClearTaint (failBackend "put failed") [] ⟨some 4, none, none⟩).1 =
      ⟨true, "", RespData.noData⟩ := by
  obtain ⟨a, b, c⟩ :=
    state_op_failure_surfaced (failBackend "put failed") [] 4 2 none "put failed"
  exact ⟨a rfl, b rfl, c rfl⟩

/-- A malformed line: unparseable JSON, or a mutating command missing
a required field (the Go float64 type assertion failing). -/
def malformedMsg : Msg → Bool
  | Msg.bad _ => true
  | Msg.cmd c =>
    (c.command == "UPDATE_TAINT"
      && (c.data.pid.isNone || c.data.taint_level.isNone))
    || ((c.command == "CLEAR_TAINT" || c.command == "REGISTER_AGENT")
      && c.data.pid.isNone)

/-- Claim C6: a malformed message gets a failure response, mutates no
table state, and the connection keeps serving the remaining messages
from the unchanged state. -/
theorem malformed_rejected_no_mutation (be : TableBackend) (t : ProcTable)
    (m : Msg) (rest : List Msg) (h : malformedMsg m = true) :
    (handleLine be t m).1.success = false ∧
    (handleLine be t m).2 = t ∧
    handleConnection be t (m :: rest) =
      ((handleLine be t m).1 :: (handleConnection be t rest).1,
       (handleConnection be t rest).2) := by
  have hmain : (handleLine be t m).1.success = false ∧
      (handleLine be t m).2 = t := by
    cases m with
    | bad d => exact ⟨rfl, rfl⟩
    | cmd c =>
      simp only [malformedMsg, Bool.or_eq_true, Bool.and_eq_true,
        beq_iff_eq, Option.isNone_iff_eq_none] at h
      rcases h with ⟨hc, hf⟩ | ⟨hc, hpid⟩
      · rcases hf with hp | ht
        · simp [handleLine, handleCommand, hc, cmdUpdateTaint, hp]
        · cases hp : c.data.pid <;>
            simp [handleLine, handleCommand, hc, cmdUpdateTaint, hp, ht]
      · rcases hc with hc | hc
        · simp [handleLine, handleCommand, hc, cmdClearTaint, hpid]
        · simp [handleLine, handleCommand, hc, cmdRegisterAgent, hpid]
  refine ⟨hmain.1, hmain.2, ?_⟩
  simp only [handleConnection, hmain.2]

/-- Witness for C6: an UPDATE_TAINT whose pid field failed the numeric
type assertion, followed by another message. -/
theorem malformed_rejected_no_mutation_witness :
    (handleLine okBackend [] (Msg.cmd ⟨"UPDATE_TAINT", ⟨none, some 3, none⟩⟩)).1.success = false ∧
    (handleLine okBackend [] (Msg.cmd ⟨"UPDATE_TAINT", ⟨none, some 3, none⟩⟩)).2 = [] ∧
    handleConnection okBackend [] (Msg.cmd ⟨"UPDATE_TAINT", ⟨none, some 3, none⟩⟩ ::
        [Msg.cmd ⟨"PING", ⟨none, none, none⟩⟩]) =
      ((handleLine okBackend [] (Msg.cmd ⟨"UPDATE_TAINT", ⟨none, some 3, none⟩⟩)).1 ::
        (handleConnection okBackend [] [Msg.cmd ⟨"PING", ⟨none, none, none⟩⟩]).1,
       (handleConnection okBackend [] [Msg.cmd ⟨"PING", ⟨none, none, none⟩⟩]).2) :=
  malformed_rejected_no_mutation okBackend []
    (Msg.cmd ⟨"UPDATE_TAINT", ⟨none, some 3, none⟩⟩)
    [Msg.cmd ⟨"PING", ⟨none, none, none⟩⟩] (by decide)

/-- Claim C7: a command outside the five supported names gets the
failure response naming it, and the connection stays usable: a PING
sent next on the same connection succeeds. -/
theorem unknown_command_response (be : TableBackend) (t : ProcTable)
    (name : String) (d : CmdData)
    (h1 : name ≠ "PING") (h2 : name ≠ "UPDATE_TAINT")
    (h3 : name ≠ "CLEAR_TAINT") (h4 : name ≠ "REGISTER_AGENT")
    (h5 : name ≠ "GET_STATE") :
    handleCommand be t ⟨name, d⟩ =
      (⟨false, "Unknown command: " ++ name, RespData.noData⟩, t) ∧
    (handleConnection be t [Msg.cmd ⟨name, d⟩,
        Msg.cmd ⟨"PING", ⟨none, none, none⟩⟩]).1 =
      [⟨false, "Unknown command: " ++ name, RespData.noData⟩,
       ⟨true, "", RespData.pong⟩] := by
  have hcmd : handleCommand be t ⟨name, d⟩ =
      (⟨false, "Unknown command: " ++ name, RespData.noData⟩, t) := by
    unfold handleCommand
    rw [if_neg h1, if_neg h2, if_neg h3, if_neg h4, if_neg h5]
  refine ⟨hcmd, ?_⟩
  simp only [handleConnection, handleLine]
  rw [hcmd]
  rfl

/-- Witness for C7 at command name FOO. -/
theorem unknown_command_response_witness :
    handleCommand okBackend [] ⟨"FOO", ⟨none, none, none⟩⟩ =
      (⟨false, "Unknown command: " ++ "FOO", RespData.noData⟩, []) ∧
    (handleConnection okBackend [] [Msg.cmd ⟨"FOO", ⟨none, none, none⟩⟩,
        Msg.cmd ⟨"PING", ⟨none, none, none⟩⟩]).1 =
      [⟨false, "Unknown command: " ++ "FOO", RespData.noData⟩,
       ⟨true, "", RespData.pong⟩] :=
  unknown_command_response okBackend [] "FOO" ⟨none, none, none⟩
    (by decide) (by decide) (by decide) (by decide) (by decide)

/-- Claim C8: a pre-execution attach failure aborts startup with a
fatal error (no server is started); file-open or task-alloc attach
failures only leave the hook unattached with a logged warning, and
startup continues to the serving state. -/
theorem exec_attach_mandatory (a : AttachOutcome) :
    (∀ e, a.execRes = Except.error e →
      daemonStart a =
        Except.error ("failed to load BPF: " ++ ("attach check_exec: " ++ e))) ∧
    (a.execRes = Except.ok () →
      ∃ r, daemonStart a = Except.ok ⟨r, true⟩ ∧ r.execAttached = true ∧
        (∀ e, a.fileRes = Except.error e → r.fileAttached = false ∧
          ("Warning: Failed to attach check_file: " ++ e) ∈ r.warnings) ∧
        (∀ e, a.taskRes = Except.error e → r.taskAttached = false ∧
          ("Warning: Failed to attach task_alloc: " ++ e) ∈ r.warnings)) := by
  constructor
  · intro e he
    unfold daemonStart loadBPF
    rw [he]
  · intro hok
    unfold daemonStart loadBPF
    rw [hok]
    cases hf : a.fileRes <;> cases ht : a.taskRes <;>
      exact ⟨_, rfl, rfl, by simp_all, by simp_all⟩

/-- Witness for C8: exec attach failing with error x aborts startup. -/
theorem exec_attach_mandatory_witness :
    daemonStart ⟨Except.error "x", Except.ok (), Except.ok ()⟩ =
      Except.error ("failed to load BPF: " ++ ("attach check_exec: " ++ "x")) :=
  (exec_attach_mandatory ⟨Except.error "x", Except.ok (), Except.ok ()⟩).1
    "x" rfl
